import Mathlib

/-!
Verification of the lead-generation backend (`backend/analyzer.py`).

The definitions below are a shallow embedding of the pipeline implemented by
the `DeepAnalyzer` class: the Sniper-Mode filter predicate, the heuristic
initial score, the security-header audit, the Gemini response sanitizer and
parser, the fallback analysis, the UI issues list built by `analyze_single`,
and the bulk-search pagination/enrichment loop of `process_bulk_search`.

Python conventions are modelled explicitly:
  * optional / possibly missing dict fields become `Option` fields;
  * Python truthiness of strings (`if s:`) is `py_truthy_str`;
  * float ratings become rationals (`ℚ`), scores become integers (`ℤ`);
  * network calls become oracle parameters (a `FetchOutcome` per page, an
    arbitrary completion-ordered list of enrichment outcomes per batch), so
    every theorem quantifies over all schedules the thread pool could yield;
  * raised exceptions become `Except` / `Option` results.
-/

namespace Analyzer

/-- Python truthiness of an optional string field: `None` and `""` are falsy. -/
def py_truthy_str : Option String → Bool
  | none => false
  | some s => s ≠ ""

/-- A raw business listing returned by the Local Business Data API
(`business` dicts in `analyzer.py`).  Fields that `analyzer.py` reads with a
plain `.get(...)` are `Option`s; fields read with `.get(key, 0)` /
`.get(key, [])` defaults are totalized the same way the default does. -/
structure Business where
  name : String := "Unknown"
  rating : Option ℚ := none
  review_count : ℕ := 0
  phone_number : Option String := none
  website : Option String := none
  photo_count : ℕ := 0
  photos : List String := []
  price_level : Option String := none
  business_status : Option String := none
  place_id : Option String := none
  deriving DecidableEq, Repr

/-- Website-presence filter options (`WebsiteStatusEnum` in `main.py`). -/
inductive WebsiteStatus where
  | any
  | hasWebsite
  | noWebsite
  deriving DecidableEq, Repr

/-- Sniper Mode filters (`SniperFilters` in `main.py`, consumed as a dict by
`_passes_filters`).  `none` on `maxRating` / `maxPhotos` is the `"any"` /
missing value; `minReviews = 0` covers both `None` and `0`, which the code
treats identically (`if min_reviews and min_reviews > 0`). -/
structure SniperFilters where
  maxRating : Option ℚ := none
  minReviews : ℕ := 0
  priceLevel : List String := []
  mustHavePhone : Bool := false
  maxPhotos : Option ℕ := none
  websiteStatus : WebsiteStatus := .any
  deriving DecidableEq, Repr

/-- Filter 1 of `_passes_filters`: reject when a rating is present and
strictly greater than the configured ceiling. -/
def rating_ok (rating maxRating : Option ℚ) : Bool :=
  match maxRating with
  | none => true
  | some maxR =>
    match rating with
    | none => true
    | some r => !(decide (r > maxR))

/-- Filter 2: reject when the review count is below a positive floor. -/
def reviews_ok (review_count minReviews : ℕ) : Bool :=
  if minReviews > 0 then !(decide (review_count < minReviews)) else true

/-- Filter 3: price-level membership.  The check is skipped when the allowed
list is empty or contains `"any"`, and when the candidate's price string is
empty (`str(business.get("price_level", ""))` is falsy). -/
def price_ok (price_level : Option String) (priceLevel : List String) : Bool :=
  if priceLevel ≠ [] ∧ "any" ∉ priceLevel then
    let business_price := price_level.getD ""
    if business_price ≠ "" then decide (business_price ∈ priceLevel) else true
  else true

/-- Filter 4: phone required. -/
def phone_ok (phone_number : Option String) (mustHavePhone : Bool) : Bool :=
  !mustHavePhone || py_truthy_str phone_number

/-- Filter 5: reject when the photo count exceeds the configured ceiling. -/
def photos_ok (photo_count : ℕ) (maxPhotos : Option ℕ) : Bool :=
  match maxPhotos with
  | none => true
  | some maxP => !(decide (photo_count > maxP))

/-- Filter 6: website presence requirement. -/
def website_ok (website : Option String) (websiteStatus : WebsiteStatus) : Bool :=
  match websiteStatus with
  | .any => true
  | .hasWebsite => py_truthy_str website
  | .noWebsite => !(py_truthy_str website)

/-- Filter 7: reject only when a business status is present (truthy) and is
not `"OPEN"`. -/
def status_ok (business_status : Option String) : Bool :=
  match business_status with
  | none => true
  | some st => st = "" || st = "OPEN"

/-- `DeepAnalyzer._passes_filters`: the conjunction of the seven Sniper Mode
checks, each applied to the fields the code reads (the code short-circuits
in this order, which only affects logging). -/
def passes_filters (b : Business) (f : SniperFilters) : Bool :=
  rating_ok b.rating f.maxRating && reviews_ok b.review_count f.minReviews &&
    price_ok b.price_level f.priceLevel && phone_ok b.phone_number f.mustHavePhone &&
    photos_ok b.photo_count f.maxPhotos && website_ok b.website f.websiteStatus &&
    status_ok b.business_status

/-- `rating and rating < 4.0` with Python truthiness: a rating of exactly
`0.0` is falsy and does not trigger the branch. -/
def rating_truthy_low (r : Option ℚ) : Bool :=
  match r with
  | none => false
  | some r => r ≠ 0 && decide (r < 4)

/-- `DeepAnalyzer._calculate_initial_score`: start at 100, deduct
20 / 15 / 30 / 10 for the four problem signals, clamp to [0, 100].
The photo deduction uses `len(business.get("photos", []))`, not
`photo_count`. -/
def calculate_initial_score (b : Business) : ℤ :=
  let s1 : ℤ := 100
  let s2 : ℤ := if rating_truthy_low b.rating then s1 - 20 else s1
  let s3 : ℤ := if b.photos.length < 10 then s2 - 15 else s2
  let s4 : ℤ := if !py_truthy_str b.website then s3 - 30 else s3
  let s5 : ℤ := if b.review_count < 20 then s4 - 10 else s4
  max 0 (min 100 s5)

/-! ## Security header audit -/

/-- Lower-cased header dict built by `_calculate_security_score`
(`{k.lower(): v for k, v in response.headers.items()}`); later duplicate
keys overwrite earlier ones, so lookups take the last match. -/
def header_get (headers : List (String × String)) (key : String) : Option String :=
  (headers.map (fun kv => (kv.1.toLower, kv.2))).reverse.lookup key

/-- `key in headers` on the lower-cased dict. -/
def header_has (headers : List (String × String)) (key : String) : Bool :=
  (header_get headers key).isSome

/-- Anchored prefix test, modelling Python's `str.startswith` and `re.sub`
with a `^...` pattern. -/
def starts_with_chars : List Char → List Char → Bool
  | [], _ => true
  | _ :: _, [] => false
  | p :: ps, c :: cs => p == c && starts_with_chars ps cs

/-- Naive substring test used to model Python's `in` on strings. -/
def list_contains_sub (cs : List Char) (sub : List Char) : Bool :=
  match cs with
  | [] => decide (sub = [])
  | _ :: rest => sub.isPrefixOf cs || list_contains_sub rest sub

/-- `sub in s` for strings. -/
def str_contains_sub (s sub : String) : Bool :=
  list_contains_sub s.toList sub.toList

/-- `DeepAnalyzer._calculate_security_score`: non-HTTPS URLs short-circuit to
score 0 with one critical issue; otherwise fixed deductions per
missing/misconfigured header, floored at 0, with a positive message when no
issue was found.  Returns `(security_score, security_issues)`. -/
def calculate_security_score (url : String) (headers : List (String × String)) :
    ℤ × List String :=
  if !(starts_with_chars "https://".toList url.toList) then
    (0, ["Critical: Website uses HTTP instead of HTTPS - All data is transmitted unencrypted"])
  else
    let score1 : ℤ := 100
    let issues1 : List String := []
    -- Check 1: HSTS
    let (score2, issues2) :=
      if !(header_has headers "strict-transport-security") then
        (score1 - 20, issues1 ++ ["Missing HSTS Header - Vulnerable to SSL Stripping Attacks"])
      else (score1, issues1)
    -- Check 2: clickjacking protection
    let has_frame_options := header_has headers "x-frame-options"
    let csp := (header_get headers "content-security-policy").getD ""
    let has_csp_frame := str_contains_sub csp.toLower "frame-ancestors"
    let (score3, issues3) :=
      if !has_frame_options && !has_csp_frame then
        (score2 - 20,
          issues2 ++ ["Missing Clickjacking Protection - No X-Frame-Options or CSP frame-ancestors"])
      else (score2, issues2)
    -- Check 3: X-Content-Type-Options
    let (score4, issues4) :=
      if !(header_has headers "x-content-type-options") then
        (score3 - 10,
          issues3 ++ ["Missing X-Content-Type-Options - Vulnerable to MIME Sniffing Attacks"])
      else if ((header_get headers "x-content-type-options").getD "").toLower ≠ "nosniff" then
        (score3 - 5, issues3 ++ ["X-Content-Type-Options present but not set to \x27nosniff\x27"])
      else (score3, issues3)
    -- Check 4: information disclosure
    let (score5, issues5) :=
      match header_get headers "x-powered-by" with
      | some powered_by =>
        (score4 - 10,
          issues4 ++
            [s!"Information Disclosure: X-Powered-By header reveals \x27{powered_by}\x27"])
      | none => (score4, issues4)
    let (score6, issues6) :=
      match header_get headers "server" with
      | some server_value =>
        if server_value.any Char.isDigit then
          (score5 - 10,
            issues5 ++
              [s!"Information Disclosure: Server header reveals version \x27{server_value}\x27"])
        else (score5, issues5)
      | none => (score5, issues5)
    -- Check 5: CSP
    let (score7, issues7) :=
      if !(header_has headers "content-security-policy") then
        (score6 - 10,
          issues6 ++ ["Missing Content-Security-Policy - No protection against XSS and injection attacks"])
      else (score6, issues6)
    -- Check 6: Referrer-Policy
    let (score8, issues8) :=
      if !(header_has headers "referrer-policy") then
        (score7 - 5, issues7 ++ ["Missing Referrer-Policy - May leak sensitive information in URLs"])
      else (score7, issues7)
    -- Check 7: Permissions-Policy / Feature-Policy
    let (score9, issues9) :=
      if !(header_has headers "permissions-policy") && !(header_has headers "feature-policy") then
        (score8 - 5, issues8 ++ ["Missing Permissions-Policy - No control over browser features"])
      else (score8, issues8)
    let final_score := max 0 score9
    let final_issues :=
      if issues9 = [] then
        ["Excellent security configuration - All recommended headers present"]
      else issues9
    (final_score, final_issues)

/-! ## Bulk search orchestration (`process_bulk_search`) -/

/-- Outcome of one HTTP call made by `_fetch_google_maps_page`: a successful
response carrying the `data` list, a `requests` timeout, or another
transport failure (a `RequestException`). -/
inductive FetchOutcome where
  | success (businesses : List Business)
  | timeout
  | transportError (msg : String)
  deriving DecidableEq, Repr

/-- `DeepAnalyzer._fetch_google_maps_page`: a timeout is swallowed and
returned as an empty page with no token; any other transport failure is
re-raised (`.error`).  On success the function always returns `None` as the
next-page token (the Local Business Data API provides none). -/
def fetch_google_maps_page (outcome : FetchOutcome) :
    Except String (List Business × Option String) :=
  match outcome with
  | .success businesses => .ok (businesses, none)
  | .timeout => .ok ([], none)
  | .transportError msg => .error msg

/-- The filter/collection loop of `process_bulk_search`: walk the page in
order, skip candidates failing the filters, stop once the batch together
with the already accumulated leads reaches the target.  `found` is the
(constant) number of accumulated leads, `acc` the number collected so far in
this batch. -/
def collect_passed (pf : Business → Bool) (found target acc : ℕ) :
    List Business → List Business
  | [] => []
  | b :: rest =>
    if found ≥ target then []
    else if !pf b then collect_passed pf found target acc rest
    else
      b :: (if acc + 1 + found ≥ target then []
            else collect_passed pf found target (acc + 1) rest)

/-- The fan-in loop of `process_bulk_search`: futures are consumed in
completion order; a successful enrichment (`some lead`) is appended, a
failed one is skipped, and processing stops as soon as the accumulator
reaches the target (remaining completions are discarded). -/
def process_completed {α : Type} (target : ℕ) (found : List α) :
    List (Option α) → List α
  | [] => found
  | c :: rest =>
    let found' := match c with
      | some lead => found ++ [lead]
      | none => found
    if found'.length ≥ target then found'
    else process_completed target found' rest

/-- The pagination loop of `process_bulk_search`.  `outcomes` is the oracle
of successive fetch results; `enrich` maps a page number and the dispatched
batch to the completion-ordered enrichment outcomes (covering every order
and success pattern the thread pool could produce).  Returns
`(found_leads, scanned_count, page_count)`. -/
def bulk_loop {α : Type} (target maxScan : ℕ) (pf : Business → Bool)
    (enrich : ℕ → List Business → List (Option α)) :
    List FetchOutcome → List α → ℕ → ℕ → List α × ℕ × ℕ
  | outcomes, found, scanned, pages =>
    if found.length ≥ target ∨ scanned ≥ maxScan then (found, scanned, pages)
    else
      match outcomes with
      | [] => (found, scanned, pages)
      | o :: rest =>
        match fetch_google_maps_page o with
        | .error _ => (found, scanned, pages + 1)
        | .ok (businesses, nextToken) =>
          if businesses = [] then (found, scanned, pages + 1)
          else
            let scanned' := scanned + businesses.length
            let passed := collect_passed pf found.length target 0 businesses
            if passed = [] then
              -- `continue`: jumps back to the `while` guard, skipping the
              -- next-page-token check at the bottom of the loop body.
              bulk_loop target maxScan pf enrich rest found scanned' (pages + 1)
            else
              let found' := process_completed target found (enrich (pages + 1) passed)
              match nextToken with
              | none => (found', scanned', pages + 1)
              | some _ =>
                if scanned' ≥ maxScan then (found', scanned', pages + 1)
                else bulk_loop target maxScan pf enrich rest found' scanned' (pages + 1)

/-- Result dict of `process_bulk_search`. -/
structure BulkResult (α : Type) where
  total_found : ℕ
  total_scanned : ℕ
  pages_fetched : ℕ
  leads : List α
  status : String
  deriving Repr

/-- `DeepAnalyzer.process_bulk_search`: run the pagination loop from an empty
accumulator and package the statistics; the status is `"completed"` exactly
when the accumulated leads reached the target. -/
def process_bulk_search {α : Type} (target maxScan : ℕ) (pf : Business → Bool)
    (enrich : ℕ → List Business → List (Option α)) (outcomes : List FetchOutcome) :
    BulkResult α :=
  let r := bulk_loop target maxScan pf enrich outcomes [] 0 0
  { total_found := r.1.length
    total_scanned := r.2.1
    pages_fetched := r.2.2
    leads := r.1
    status := if r.1.length ≥ target then "completed" else "partial" }

/-! ## JSON values (the dicts handled by `json.loads` and the Gemini code) -/

/-- JSON values as produced by `json.loads`.  Objects keep their field list;
lookups take the last occurrence of a key, matching Python dict semantics
for duplicate keys.  Numbers are restricted to integers, the only numeric
values in the Gemini schema (a fractional number makes the parse fail, which
the pipeline treats like any other JSON error). -/
inductive Json where
  | null
  | bool (b : Bool)
  | num (n : ℤ)
  | str (s : String)
  | arr (elems : List Json)
  | obj (fields : List (String × Json))

/-- `d.get(key)` on a Python dict: last binding wins. -/
def dict_get (fields : List (String × Json)) (key : String) : Option Json :=
  fields.reverse.lookup key

/-- `d.get(key, default)`. -/
def dict_get_d (fields : List (String × Json)) (key : String) (d : Json) : Json :=
  (dict_get fields key).getD d

/-- `key in d`. -/
def dict_has (fields : List (String × Json)) (key : String) : Bool :=
  (dict_get fields key).isSome

/-- Python truthiness of a JSON value. -/
def py_truthy_json : Json → Bool
  | .null => false
  | .bool b => b
  | .num n => n ≠ 0
  | .str s => s ≠ ""
  | .arr [] => false
  | .arr (_ :: _) => true
  | .obj [] => false
  | .obj (_ :: _) => true

/-- `list.extend(v)`: iterable values yield their elements (a string yields
its characters, a dict its keys); non-iterables raise `TypeError` (`none`). -/
def py_extend_elems : Json → Option (List Json)
  | .arr xs => some xs
  | .str s => some (s.toList.map (fun c => .str c.toString))
  | .obj fs => some (fs.map (fun kv => .str kv.1))
  | _ => none

/-! ## Response sanitization (`_parse_gemini_response`, lines 1097-1131) -/

/-- `\s` character class. -/
def is_ws (c : Char) : Bool := c.isWhitespace

def drop_leading_ws (cs : List Char) : List Char := cs.dropWhile is_ws

def drop_trailing_ws (cs : List Char) : List Char := (drop_leading_ws cs.reverse).reverse

/-- Python `str.strip()`. -/
def trim_list (cs : List Char) : List Char := drop_trailing_ws (drop_leading_ws cs)

/-- The three `re.sub` fence-stripping steps:
`^```json\s*`, then `^```\s*`, then `\s*```$`. -/
def strip_fences (cs : List Char) : List Char :=
  let s1 := if starts_with_chars "```json".toList cs then drop_leading_ws (cs.drop 7) else cs
  let s2 := if starts_with_chars "```".toList s1 then drop_leading_ws (s1.drop 3) else s1
  if starts_with_chars "```".toList s2.reverse then
    (drop_leading_ws (s2.reverse.drop 3)).reverse
  else s2

/-- Smart-quote normalization (U+201C/U+201D to `"` and U+2018/U+2019 to
the ASCII apostrophe). -/
def smart_quote (c : Char) : Char :=
  if c == Char.ofNat 8220 || c == Char.ofNat 8221 then '"'
  else if c == Char.ofNat 8216 || c == Char.ofNat 8217 then Char.ofNat 39
  else c

/-- When the text does not start with `{`, slice from the first `{` to the
last `}` (`cleaned[start:end+1]`); if either is missing keep the text. -/
def extract_braces (cs : List Char) : List Char :=
  if cs.head? == some '{' then cs
  else
    match cs.findIdx? (· == '{'), cs.reverse.findIdx? (· == '}') with
    | some s, some eRev =>
      let e := cs.length - 1 - eRev
      (cs.drop s).take (e + 1 - s)
    | _, _ => cs

/-- Truncation repair: append one `}` per unmatched `{`. -/
def brace_repair (cs : List Char) : List Char :=
  let opens := cs.count '{'
  let closes := cs.count '}'
  if opens > closes then cs ++ List.replicate (opens - closes) '}' else cs

/-- Non-overlapping occurrences of the two-character substring `\"`
(Python `cleaned.count(chr(92) ++ chr(34))`). -/
def count_esc_quote : List Char → ℕ
  | [] => 0
  | [_] => 0
  | a :: b :: rest =>
    if a == '\\' && b == '"' then 1 + count_esc_quote rest
    else count_esc_quote (b :: rest)

/-- Unterminated-string repair: when the unescaped quote count is odd,
append `"` and `}`. -/
def quote_repair (cs : List Char) : List Char :=
  let quotes := cs.count '"' - count_esc_quote cs
  if quotes % 2 ≠ 0 then cs ++ ['"', '}'] else cs

/-- The full sanitization pipeline applied before `json.loads`. -/
def sanitize_response (cs : List Char) : List Char :=
  let c1 := trim_list cs
  let c2 := strip_fences c1
  let c3 := trim_list c2
  let c4 := c3.map smart_quote
  let c5 := extract_braces c4
  let c6 := brace_repair c5
  quote_repair c6

/-! ## `json.loads` on the sanitized text -/

def skip_ws (cs : List Char) : List Char := cs.dropWhile is_ws

/-- Hexadecimal digit value, for `\uXXXX` escapes. -/
def hex_val (c : Char) : Option ℕ :=
  if c.isDigit then some (c.toNat - 48)
  else if 'a' ≤ c ∧ c ≤ 'f' then some (c.toNat - 97 + 10)
  else if 'A' ≤ c ∧ c ≤ 'F' then some (c.toNat - 65 + 10)
  else none

/-- Body of a JSON string literal (after the opening quote), with escapes. -/
def parse_string_body : ℕ → List Char → Option (List Char × List Char)
  | 0, _ => none
  | _, [] => none
  | fuel + 1, c :: rest =>
    if c == '"' then some ([], rest)
    else if c == '\\' then
      match rest with
      | [] => none
      | e :: rest2 =>
        let cont (d : Char) (rs : List Char) : Option (List Char × List Char) :=
          match parse_string_body fuel rs with
          | some (body, rem) => some (d :: body, rem)
          | none => none
        if e == '"' then cont '"' rest2
        else if e == '\\' then cont '\\' rest2
        else if e == '/' then cont '/' rest2
        else if e == 'b' then cont (Char.ofNat 8) rest2
        else if e == 'f' then cont (Char.ofNat 12) rest2
        else if e == 'n' then cont '\n' rest2
        else if e == 'r' then cont '\r' rest2
        else if e == 't' then cont '\t' rest2
        else if e == 'u' then
          match rest2 with
          | h1 :: h2 :: h3 :: h4 :: rest3 =>
            match hex_val h1, hex_val h2, hex_val h3, hex_val h4 with
            | some a, some b, some c2, some d =>
              cont (Char.ofNat (((a * 16 + b) * 16 + c2) * 16 + d)) rest3
            | _, _, _, _ => none
          | _ => none
        else none
    else
      match parse_string_body fuel rest with
      | some (body, rem) => some (c :: body, rem)
      | none => none

def digits_to_nat : ℕ → List Char → ℕ
  | acc, [] => acc
  | acc, c :: rest => digits_to_nat (acc * 10 + (c.toNat - 48)) rest

/-- JSON integer literal (leading zeros rejected; fractional parts and
exponents unsupported, making the parse fail). -/
def parse_number (cs : List Char) : Option (ℤ × List Char) :=
  let p := match cs with
    | '-' :: rest => (true, rest)
    | _ => (false, cs)
  match p.2 with
  | [] => none
  | c :: _ =>
    if !c.isDigit then none
    else
      let ds := p.2.takeWhile Char.isDigit
      let rest := p.2.dropWhile Char.isDigit
      if ds.length > 1 ∧ ds.head? = some '0' then none
      else
        match rest with
        | '.' :: _ => none
        | 'e' :: _ => none
        | 'E' :: _ => none
        | _ =>
          let n : ℤ := (digits_to_nat 0 ds : ℕ)
          some (if p.1 then -n else n, rest)

mutual

/-- One JSON value. -/
def parse_value : ℕ → List Char → Option (Json × List Char)
  | 0, _ => none
  | fuel + 1, cs =>
    match skip_ws cs with
    | [] => none
    | c :: rest =>
      if c == '{' then
        match skip_ws rest with
        | '}' :: rest2 => some (.obj [], rest2)
        | rest2 => parse_members fuel rest2 []
      else if c == '[' then
        match skip_ws rest with
        | ']' :: rest2 => some (.arr [], rest2)
        | rest2 => parse_items fuel rest2 []
      else if c == '"' then
        match parse_string_body (rest.length + 1) rest with
        | some (body, rem) => some (.str (String.mk body), rem)
        | none => none
      else if starts_with_chars "true".toList (c :: rest) then some (.bool true, rest.drop 3)
      else if starts_with_chars "false".toList (c :: rest) then some (.bool false, rest.drop 4)
      else if starts_with_chars "null".toList (c :: rest) then some (.null, rest.drop 3)
      else
        match parse_number (c :: rest) with
        | some (n, rem) => some (.num n, rem)
        | none => none

/-- `"key": value` members of an object, after the opening `{`. -/
def parse_members : ℕ → List Char → List (String × Json) → Option (Json × List Char)
  | 0, _, _ => none
  | fuel + 1, cs, acc =>
    match skip_ws cs with
    | '"' :: rest =>
      match parse_string_body (rest.length + 1) rest with
      | some (key, rest2) =>
        match skip_ws rest2 with
        | ':' :: rest3 =>
          match parse_value fuel rest3 with
          | some (v, rest4) =>
            let acc' := acc ++ [(String.mk key, v)]
            match skip_ws rest4 with
            | ',' :: rest5 => parse_members fuel rest5 acc'
            | '}' :: rest5 => some (.obj acc', rest5)
            | _ => none
          | none => none
        | _ => none
      | none => none
    | _ => none

/-- Elements of an array, after the opening `[`. -/
def parse_items : ℕ → List Char → List Json → Option (Json × List Char)
  | 0, _, _ => none
  | fuel + 1, cs, acc =>
    match parse_value fuel cs with
    | some (v, rest) =>
      let acc' := acc ++ [v]
      match skip_ws rest with
      | ',' :: rest2 => parse_items fuel rest2 acc'
      | ']' :: rest2 => some (.arr acc', rest2)
      | _ => none
    | none => none

end

/-- `json.loads`: a single value followed only by whitespace. -/
def json_loads (cs : List Char) : Option Json :=
  match parse_value (cs.length + 1) cs with
  | some (v, rest) => if skip_ws rest = [] then some v else none
  | none => none

/-! ## Parsing + validation (`_parse_gemini_response`) -/

def required_fields : List String := ["lead_quality", "scores", "report_card", "email_pitch"]

def is_obj : Json → Bool
  | .obj _ => true
  | _ => false

/-- Schema validation: the four required keys must be present and three of
them must be dicts.  A non-dict top-level value raises inside the `try`
(`AttributeError` on `.get`) and is caught, yielding `None`. -/
def validate_gemini (j : Json) : Option (List (String × Json)) :=
  match j with
  | .obj fields =>
    if required_fields.all (fun k => dict_has fields k) then
      if is_obj (dict_get_d fields "scores" .null) &&
          is_obj (dict_get_d fields "report_card" .null) &&
          is_obj (dict_get_d fields "email_pitch" .null) then
        some fields
      else none
    else none
  | _ => none

/-- `DeepAnalyzer._parse_gemini_response`: sanitize, parse, validate;
every failure returns `None` instead of raising. -/
def parse_gemini_response (s : String) : Option (List (String × Json)) :=
  match json_loads (sanitize_response s.toList) with
  | some j => validate_gemini j
  | none => none

/-! ## Fallback analysis and the AI probe -/

/-- `DeepAnalyzer._get_fallback_analysis`: deterministic substitute built
from simple rules; `rating = map_data.get("rating", 5.0)` makes an absent
rating fail the `rating and rating < 4.0` test exactly like `None` does. -/
def get_fallback_analysis (url : Option String) (map_data : Business) :
    List (String × Json) :=
  let business_name := map_data.name
  let has_website := py_truthy_str url
  let low_rating := rating_truthy_low map_data.rating
  let q :=
    if !has_website then ("High", "Keine Website vorhanden")
    else if low_rating then ("High", "Niedrige Bewertung und Verbesserungspotenzial")
    else ("Medium", "Optimierungspotenzial vorhanden")
  let lead_quality := q.1
  let main_issue := q.2
  [("lead_quality", .str lead_quality),
   ("tech_stack", .arr [.str "Unknown"]),
   ("scores", .obj [("ui", .num 50), ("ux", .num 50), ("seo", .num 50),
                    ("content", .num 50), ("total", .num 50)]),
   ("report_card", .obj [
      ("executive_summary", .str (business_name ++ " hat " ++ main_issue ++
        ". Eine professionelle Website könnte die Online-Präsenz deutlich verbessern.")),
      ("issues_found", .arr [.str main_issue,
        .str "Analyse nur mit Basis-Daten durchgeführt",
        .str "Detaillierte Analyse benötigt AI-Integration"]),
      ("recommendations", .arr [
        .str "Professionelle Website erstellen oder optimieren",
        .str "SEO-Optimierung durchführen",
        .str "Mobile Performance verbessern"])]),
   ("email_pitch", .obj [
      ("subject", .str ("Website-Potenzial für " ++ business_name)),
      ("body_text", .str ("Guten Tag,\n\nich habe " ++ business_name ++
        " auf Google Maps gefunden und festgestellt: " ++ main_issue ++
        ". In Ihrer Branche ist eine professionelle Online-Präsenz heute unverzichtbar. Wir helfen Unternehmen wie Ihrem, mehr Kunden online zu gewinnen. Haben Sie 15 Minuten für ein kurzes Gespräch?\n\nMit freundlichen Grüßen"))])]

/-- The tail of `_analyze_with_gemini`: a parse/validation failure (`None`)
falls back, a validated response is returned as-is. -/
def gemini_parse_or_fallback (parsed : Option (List (String × Json)))
    (url : Option String) (map_data : Business) : List (String × Json) :=
  match parsed with
  | none => get_fallback_analysis url map_data
  | some data => data

/-- `DeepAnalyzer._analyze_with_gemini`: a missing API key, a failed service
call (any raised exception) or an unparseable/invalid response all resolve
to the fallback; a validated response is returned as-is.  The function is
total: no failure path escapes. -/
def analyze_with_gemini : Bool → Except String String → Option String → Business →
    List (String × Json)
  | false, _, url, map_data => get_fallback_analysis url map_data
  | true, .error _, url, map_data => get_fallback_analysis url map_data
  | true, .ok response_text, url, map_data =>
    gemini_parse_or_fallback (parse_gemini_response response_text) url map_data

/-! ## The UI issues list built by `analyze_single` (lines 658-683) -/

/-- Outcome of `_fetch_pagespeed_data` when it returns data. -/
structure PagespeedResult where
  performance_score : ℤ
  loading_time : String := "N/A"
  deriving DecidableEq, Repr

/-- Outcome of `_fetch_website_for_security_check` when it returns data. -/
structure SecurityResult where
  security_score : Option ℤ
  security_issues : List String
  deriving DecidableEq, Repr

/-- The de-duplication loop over `issues_for_ui`: empty strings and
non-strings are skipped, the first occurrence of each string is kept. -/
def dedup_issues (seen : List String) : List Json → List String
  | [] => []
  | i :: rest =>
    match i with
    | .str s =>
      if s == "" then dedup_issues seen rest
      else if seen.contains s then dedup_issues seen rest
      else s :: dedup_issues (s :: seen) rest
    | _ => dedup_issues seen rest

/-- Python `str.strip()` on a `String` (via the character list, so that it
evaluates inside the kernel). -/
def py_strip (s : String) : String := String.mk (trim_list s.toList)

/-- The security entries added to `issues_for_ui`: the top 3 security
issues, when the probe ran and reported any. -/
def sec_issues_part (security_data : Option SecurityResult) : List Json :=
  match security_data with
  | some sd =>
    if sd.security_issues ≠ [] then (sd.security_issues.take 3).map .str else []
  | none => []

/-- The PageSpeed entry added to `issues_for_ui` when the candidate has a
website: a timeout marker when the probe returned nothing, a low-score
entry when the score is below 50. -/
def ps_issues_part (has_website : Bool) (pagespeed_data : Option PagespeedResult) :
    List Json :=
  if has_website then
    match pagespeed_data with
    | none => [.str "PageSpeed: Timeout / Unavailable"]
    | some ps =>
      let p := ps.performance_score
      if p < 50 then [.str s!"Low PageSpeed score ({p}/100)"] else []
  else []

/-- `gemini_data.get("report_card", {}).get("issues_found", []) or []`
followed by `list.extend`; `none` models the raised `AttributeError` /
`TypeError` when `report_card` is not a dict or `issues_found` is a truthy
non-iterable. -/
def gemini_issues_part (gemini : List (String × Json)) : Option (List Json) :=
  match dict_get_d gemini "report_card" (.obj []) with
  | .obj rc_fields =>
    let issues_j := dict_get_d rc_fields "issues_found" (.arr [])
    py_extend_elems (if py_truthy_json issues_j then issues_j else .arr [])
  | _ => none

/-- The `issues` field of the record returned by `analyze_single` (built in
lines 658-683): the top 3 security issues, a PageSpeed availability /
low-score issue when the candidate has a website, then the Gemini-reported
issues; de-duplicated and capped at 10.  `none` models the raised
`AttributeError` / `TypeError` paths, which abort the candidate. -/
def analyze_single_issues (url : Option String) (psOracle : Option PagespeedResult)
    (secOracle : Option SecurityResult) (gemini : List (String × Json)) :
    Option (List String) :=
  let url' := url.map py_strip
  let has_website := py_truthy_str url'
  let pagespeed_data := if has_website then psOracle else none
  let security_data := if has_website then secOracle else none
  match gemini_issues_part gemini with
  | none => none
  | some g_part =>
    some ((dedup_issues []
      (sec_issues_part security_data ++ ps_issues_part has_website pagespeed_data ++
        g_part)).take 10)

/-! ## Auxiliary definitions used in the theorem statements -/

/-- Erase a chosen subset of the optional Candidate fields (used to state
that missing data never flips a pass into a fail outside the explicit
required/excluded checks). -/
def erase_optional (er ep ew epr es : Bool) (b : Business) : Business :=
  { b with
    rating := if er then none else b.rating
    phone_number := if ep then none else b.phone_number
    website := if ew then none else b.website
    price_level := if epr then none else b.price_level
    business_status := if es then none else b.business_status }

/-- Plain first-occurrence de-duplication of a string list, written
independently of the seen-set loop in `analyze_single`. -/
def dedup_strings_first : List String → List String
  | [] => []
  | s :: rest => s :: dedup_strings_first (rest.filter (fun t => t ≠ s))
termination_by l => l.length
decreasing_by
  simp only [List.length_cons]
  have := List.length_filter_le (fun t => t ≠ s) rest
  omega

/-- Modelled from claim C2's words: the top 2 security issues prepended to
the AI-reported issues, de-duplicated by exact case-sensitive match keeping
first occurrences, capped at 10. -/
def issues_claim_spec_C2 (security_issues ai_issues : List String) : List String :=
  (dedup_strings_first (security_issues.take 2 ++ ai_issues)).take 10

/-- Modelled from claim C3's words: fallback lead quality is `"High"` when
the candidate has no website, `"High"` when its rating is below 4.0, and
`"Medium"` otherwise. -/
def fallback_quality_claim_C3 (url : Option String) (b : Business) : String :=
  if !py_truthy_str url then "High"
  else
    match b.rating with
    | some r => if r < 4 then "High" else "Medium"
    | none => "Medium"

/-- Modelled from claim C6's words: 100 minus 20 when a rating is present
and below 4.0, minus 15 when the photo count is below 10, minus 30 when
there is no website, minus 10 when the review count is below 20, clamped
to [0, 100]. -/
def initial_score_claim_C6 (b : Business) : ℤ :=
  let low : Bool :=
    match b.rating with
    | some r => decide (r < 4)
    | none => false
  let s : ℤ := 100 - (if low then 20 else 0) - (if b.photos.length < 10 then 15 else 0) -
    (if py_truthy_str b.website then 0 else 30) - (if b.review_count < 20 then 10 else 0)
  max 0 (min 100 s)

/-! # Theorems -/

/-- C7: for every fetched response whose final URL is not HTTPS, the
security scorer returns score 0 and an issues list containing exactly one
critical issue, regardless of which headers are present; all other header
checks are skipped. -/
theorem security_non_https_short_circuit (url : String)
    (headers : List (String × String))
    (h : starts_with_chars "https://".toList url.toList = false) :
    calculate_security_score url headers =
      (0, ["Critical: Website uses HTTP instead of HTTPS - All data is transmitted unencrypted"]) := by
  unfold calculate_security_score
  rw [h]
  rfl

/-- Witness for C7: a plain-HTTP URL scores 0 with the single critical
issue even when all seven recommended headers are present and correct. -/
theorem security_non_https_short_circuit_witness :
    starts_with_chars "https://".toList "http://shop.example.com".toList = false ∧
    calculate_security_score "http://shop.example.com"
      [("Strict-Transport-Security", "max-age=63072000"),
       ("X-Frame-Options", "DENY"),
       ("X-Content-Type-Options", "nosniff"),
       ("Content-Security-Policy", "default-src \x27self\x27; frame-ancestors \x27none\x27"),
       ("Referrer-Policy", "no-referrer"),
       ("Permissions-Policy", "camera=()")] =
      (0, ["Critical: Website uses HTTP instead of HTTPS - All data is transmitted unencrypted"]) :=
  ⟨by decide, security_non_https_short_circuit _ _ (by decide)⟩

/-- C6 (counterexample): the claim's deduction rule "minus 20 if a rating
is present and below 4.0" fails for a candidate whose rating is exactly
`0.0`: `rating and rating < 4.0` is falsy in Python, so the code deducts
nothing and returns 100, while the claimed formula yields 80. -/
theorem initial_score_zero_rating_counterexample :
    calculate_initial_score
      { rating := some 0, photos := List.replicate 10 "p",
        website := some "https://x.ch", review_count := 20 } = 100 ∧
    initial_score_claim_C6
      { rating := some 0, photos := List.replicate 10 "p",
        website := some "https://x.ch", review_count := 20 } = 80 := by
  constructor <;> decide

/-- C6 (amended): `initialScore` always lies in [0, 100] and equals 100
minus 20 when a rating is present, nonzero and below 4.0, minus 15 when the
photo count is below 10, minus 30 when there is no website, minus 10 when
the review count is below 20, clamped to [0, 100]; each single deduction
alone yields exactly 80 / 85 / 70 / 90 against the all-clear baseline
of 100. -/
theorem initial_score_range_and_deductions :
    (∀ b : Business, 0 ≤ calculate_initial_score b ∧ calculate_initial_score b ≤ 100) ∧
    (∀ b : Business, calculate_initial_score b =
      max 0 (min 100 (100 - (if rating_truthy_low b.rating then 20 else 0) -
        (if b.photos.length < 10 then 15 else 0) -
        (if !py_truthy_str b.website then 30 else 0) -
        (if b.review_count < 20 then 10 else 0)))) ∧
    calculate_initial_score
      { rating := none, photos := List.replicate 10 "p",
        website := some "https://x.ch", review_count := 20 } = 100 ∧
    calculate_initial_score
      { rating := some 3, photos := List.replicate 10 "p",
        website := some "https://x.ch", review_count := 20 } = 80 ∧
    calculate_initial_score
      { rating := none, photos := List.replicate 9 "p",
        website := some "https://x.ch", review_count := 20 } = 85 ∧
    calculate_initial_score
      { rating := none, photos := List.replicate 10 "p",
        website := none, review_count := 20 } = 70 ∧
    calculate_initial_score
      { rating := none, photos := List.replicate 10 "p",
        website := some "https://x.ch", review_count := 19 } = 90 := by
  refine ⟨?_, ?_, by decide, by decide, by decide, by decide, by decide⟩
  · intro b
    unfold calculate_initial_score
    constructor
    · exact le_max_left 0 _
    · exact max_le (by norm_num) (min_le_left _ _)
  · intro b
    unfold calculate_initial_score
    split_ifs <;> norm_num

/-! ### Per-check facts about `_passes_filters` -/

theorem rating_ok_none (m : Option ℚ) : rating_ok none m = true := by
  cases m <;> rfl

theorem price_ok_none (S : List String) : price_ok none S = true := by
  simp [price_ok]

theorem website_ok_none (w : WebsiteStatus) (h : w ≠ .hasWebsite) :
    website_ok none w = true := by
  cases w <;> simp_all [website_ok, py_truthy_str]

/-- C4 (counterexample): with the website filter on its wildcard value and
`mustHavePhone` enabled, a candidate is rejected solely because its phone
field is absent — the same candidate with a phone passes — so absence of a
field does cause rejection outside the website required/excluded check. -/
theorem passes_filters_missing_phone_counterexample :
    passes_filters {} { mustHavePhone := true } = false ∧
    passes_filters { phone_number := some "+41 44 111 22 33" } { mustHavePhone := true } = true ∧
    ({ mustHavePhone := true } : SniperFilters).websiteStatus = .any := by
  refine ⟨by decide, by decide, rfl⟩

/-- C4 (amended): with every criterion on its wildcard value, `passes`
accepts every candidate with no optional fields populated; and erasing any
subset of the optional fields can never turn a pass into a fail as long as
the explicit phone-required and website-required checks are off. -/
theorem passes_filters_wildcard_and_missing_fields :
    (∀ (f : SniperFilters) (b : Business),
      f.maxRating = none → f.minReviews = 0 →
      (f.priceLevel = [] ∨ "any" ∈ f.priceLevel) →
      f.mustHavePhone = false → f.maxPhotos = none → f.websiteStatus = .any →
      b.rating = none → b.phone_number = none → b.website = none →
      b.price_level = none → b.business_status = none →
      passes_filters b f = true) ∧
    (∀ (f : SniperFilters) (b : Business) (er ep ew epr es : Bool),
      f.mustHavePhone = false → f.websiteStatus ≠ .hasWebsite →
      passes_filters b f = true →
      passes_filters (erase_optional er ep ew epr es b) f = true) := by
  constructor
  · intro f b h1 h2 h3 h4 h5 h6 c1 c2 c3 c4 c5
    simp only [passes_filters, h1, h2, h4, h5, h6, c1, c4, c5, Bool.and_eq_true]
    refine ⟨⟨⟨⟨⟨⟨rating_ok_none none, ?_⟩, price_ok_none _⟩, ?_⟩, rfl⟩, rfl⟩, rfl⟩
    · simp [reviews_ok]
    · simp [phone_ok]
  · intro f b er ep ew epr es h1 h2 hpass
    simp only [passes_filters, Bool.and_eq_true] at hpass ⊢
    obtain ⟨⟨⟨⟨⟨⟨hr, hrev⟩, hpr⟩, hph⟩, hpho⟩, hw⟩, hst⟩ := hpass
    refine ⟨⟨⟨⟨⟨⟨?_, ?_⟩, ?_⟩, ?_⟩, ?_⟩, ?_⟩, ?_⟩
    · cases er <;> simp_all [erase_optional, rating_ok_none]
    · simp_all [erase_optional]
    · cases epr <;> simp_all [erase_optional, price_ok_none]
    · simp [erase_optional, phone_ok, h1]
    · simp_all [erase_optional]
    · cases ew <;> simp_all [erase_optional, website_ok_none]
    · cases es <;> simp_all [erase_optional, status_ok]

/-- C5 (counterexample): the empty allowed-price-tier set is a *smaller*
set than `["1"]` but is treated as the wildcard, so with criteria differing
only in that threshold a candidate (price tier "2") passes under the
smaller set and fails under the larger one — monotonicity fails for the
price-tier criterion. -/
theorem passes_filters_monotone_counterexample :
    passes_filters { price_level := some "2" } { priceLevel := [] } = true ∧
    passes_filters { price_level := some "2" } { priceLevel := ["1"] } = false ∧
    ([] : List String) ⊆ ["1"] := by
  refine ⟨by decide, by decide, by simp⟩

/-- C5 (amended): `passes` is monotonic in every single threshold —
rating ceiling, review floor, phone-required, photo ceiling, website
status — and in the allowed price-tier set provided the smaller set is
nonempty (the empty set encodes the wildcard and is the loosest value, not
the tightest). -/
theorem passes_filters_monotone :
    (∀ (b : Business) (f : SniperFilters) (o : Option ℚ),
      passes_filters b { f with maxRating := o } = true →
      passes_filters b { f with maxRating := none } = true) ∧
    (∀ (b : Business) (f : SniperFilters) (rt rl : ℚ), rt ≤ rl →
      passes_filters b { f with maxRating := some rt } = true →
      passes_filters b { f with maxRating := some rl } = true) ∧
    (∀ (b : Business) (f : SniperFilters) (m m' : ℕ), m' ≤ m →
      passes_filters b { f with minReviews := m } = true →
      passes_filters b { f with minReviews := m' } = true) ∧
    (∀ (b : Business) (f : SniperFilters) (S S' : List String), S ≠ [] → S ⊆ S' →
      passes_filters b { f with priceLevel := S } = true →
      passes_filters b { f with priceLevel := S' } = true) ∧
    (∀ (b : Business) (f : SniperFilters),
      passes_filters b { f with mustHavePhone := true } = true →
      passes_filters b { f with mustHavePhone := false } = true) ∧
    (∀ (b : Business) (f : SniperFilters) (o : Option ℕ),
      passes_filters b { f with maxPhotos := o } = true →
      passes_filters b { f with maxPhotos := none } = true) ∧
    (∀ (b : Business) (f : SniperFilters) (pt pl : ℕ), pt ≤ pl →
      passes_filters b { f with maxPhotos := some pt } = true →
      passes_filters b { f with maxPhotos := some pl } = true) ∧
    (∀ (b : Business) (f : SniperFilters) (w : WebsiteStatus),
      passes_filters b { f with websiteStatus := w } = true →
      passes_filters b { f with websiteStatus := .any } = true) := by
  refine ⟨?_, ?_, ?_, ?_, ?_, ?_, ?_, ?_⟩
  · intro b f o h
    simp only [passes_filters, Bool.and_eq_true] at h ⊢
    refine ⟨⟨⟨⟨⟨⟨?_, h.1.1.1.1.1.2⟩, h.1.1.1.1.2⟩, h.1.1.1.2⟩, h.1.1.2⟩, h.1.2⟩, h.2⟩
    cases b.rating <;> rfl
  · intro b f rt rl hle h
    simp only [passes_filters, Bool.and_eq_true] at h ⊢
    refine ⟨⟨⟨⟨⟨⟨?_, h.1.1.1.1.1.2⟩, h.1.1.1.1.2⟩, h.1.1.1.2⟩, h.1.1.2⟩, h.1.2⟩, h.2⟩
    have hr := h.1.1.1.1.1.1
    cases hb : b.rating with
    | none => rfl
    | some r =>
      simp only [rating_ok, hb, Bool.not_eq_true', decide_eq_false_iff_not, not_lt] at hr ⊢
      exact le_trans hr hle
  · intro b f m m' hle h
    simp only [passes_filters, Bool.and_eq_true] at h ⊢
    refine ⟨⟨⟨⟨⟨⟨h.1.1.1.1.1.1, ?_⟩, h.1.1.1.1.2⟩, h.1.1.1.2⟩, h.1.1.2⟩, h.1.2⟩, h.2⟩
    have hr := h.1.1.1.1.1.2
    simp only [reviews_ok] at hr ⊢
    split_ifs with hm
    · split_ifs at hr with hm2
      · simp only [Bool.not_eq_true', decide_eq_false_iff_not, not_lt] at hr ⊢
        omega
      · omega
    · rfl
  · intro b f S S' hne hsub h
    simp only [passes_filters, Bool.and_eq_true] at h ⊢
    refine ⟨⟨⟨⟨⟨⟨h.1.1.1.1.1.1, h.1.1.1.1.1.2⟩, ?_⟩, h.1.1.1.2⟩, h.1.1.2⟩, h.1.2⟩, h.2⟩
    have hr := h.1.1.1.1.2
    simp only [price_ok] at hr ⊢
    split_ifs with hc hp
    · have hcs : S ≠ [] ∧ "any" ∉ S := ⟨hne, fun ha => hc.2 (hsub ha)⟩
      rw [if_pos hcs, if_pos hp] at hr
      simp only [decide_eq_true_eq] at hr ⊢
      exact hsub hr
    · rfl
    · rfl
  · intro b f h
    simp only [passes_filters, Bool.and_eq_true] at h ⊢
    refine ⟨⟨⟨⟨⟨⟨h.1.1.1.1.1.1, h.1.1.1.1.1.2⟩, h.1.1.1.1.2⟩, ?_⟩, h.1.1.2⟩, h.1.2⟩, h.2⟩
    simp [phone_ok]
  · intro b f o h
    simp only [passes_filters, Bool.and_eq_true] at h ⊢
    refine ⟨⟨⟨⟨⟨⟨h.1.1.1.1.1.1, h.1.1.1.1.1.2⟩, h.1.1.1.1.2⟩, h.1.1.1.2⟩, ?_⟩, h.1.2⟩, h.2⟩
    rfl
  · intro b f pt pl hle h
    simp only [passes_filters, Bool.and_eq_true] at h ⊢
    refine ⟨⟨⟨⟨⟨⟨h.1.1.1.1.1.1, h.1.1.1.1.1.2⟩, h.1.1.1.1.2⟩, h.1.1.1.2⟩, ?_⟩, h.1.2⟩, h.2⟩
    have hr := h.1.1.2
    simp only [photos_ok, Bool.not_eq_true', decide_eq_false_iff_not, not_lt] at hr ⊢
    omega
  · intro b f w h
    simp only [passes_filters, Bool.and_eq_true] at h ⊢
    refine ⟨⟨⟨⟨⟨⟨h.1.1.1.1.1.1, h.1.1.1.1.1.2⟩, h.1.1.1.1.2⟩, h.1.1.1.2⟩, h.1.1.2⟩, ?_⟩, h.2⟩
    rfl

/-- Witness for C4 (amended): the default criteria accept the empty
candidate, and erasing every optional field of a fully-populated passing
candidate still passes under the default criteria. -/
theorem passes_filters_wildcard_and_missing_fields_witness :
    passes_filters {} {} = true ∧
    passes_filters
      (erase_optional true true true true true
        { rating := some 5, phone_number := some "+41 44 111 22 33",
          website := some "https://x.ch", price_level := some "1",
          business_status := some "OPEN" }) {} = true :=
  ⟨passes_filters_wildcard_and_missing_fields.1 {} {} rfl rfl (Or.inl rfl) rfl rfl rfl
      rfl rfl rfl rfl rfl,
   passes_filters_wildcard_and_missing_fields.2 {}
      { rating := some 5, phone_number := some "+41 44 111 22 33",
        website := some "https://x.ch", price_level := some "1",
        business_status := some "OPEN" }
      true true true true true rfl (by decide) (by decide)⟩

/-- Witness for C5 (amended): raising the rating ceiling from 3 to 4 keeps
a rating-3 candidate passing, and growing a nonempty price-tier set keeps a
matching candidate passing. -/
theorem passes_filters_monotone_witness :
    passes_filters { rating := some 3 } { maxRating := some 4 } = true ∧
    passes_filters { price_level := some "1" } { priceLevel := ["1", "2"] } = true :=
  ⟨passes_filters_monotone.2.1 { rating := some 3 } {} 3 4 (by norm_num) (by decide),
   passes_filters_monotone.2.2.2.1 { price_level := some "1" } {} ["1"] ["1", "2"]
      (by decide) (by simp) (by decide)⟩

/-! ### The bulk-search orchestration -/

theorem process_completed_length_le {α : Type} (target : ℕ) :
    ∀ (cs : List (Option α)) (found : List α), found.length < target →
      (process_completed target found cs).length ≤ target := by
  intro cs
  induction cs with
  | nil =>
    intro found h
    simpa [process_completed] using le_of_lt h
  | cons c rest ih =>
    intro found h
    cases c with
    | some lead =>
      simp only [process_completed]
      by_cases hlen : (found ++ [lead]).length ≥ target
      · rw [if_pos hlen]
        simp only [List.length_append, List.length_singleton]
        omega
      · rw [if_neg hlen]
        exact ih _ (by simp only [List.length_append, List.length_singleton] at hlen ⊢; omega)
    | none =>
      simp only [process_completed]
      rw [if_neg (by omega)]
      exact ih _ h

theorem bulk_loop_length_le {α : Type} (target maxScan : ℕ) (pf : Business → Bool)
    (enrich : ℕ → List Business → List (Option α)) :
    ∀ (outcomes : List FetchOutcome) (found : List α) (scanned pages : ℕ),
      found.length ≤ target →
      (bulk_loop target maxScan pf enrich outcomes found scanned pages).1.length ≤ target := by
  intro outcomes
  induction outcomes with
  | nil =>
    intro found scanned pages h
    rw [bulk_loop]
    split_ifs <;> exact h
  | cons o rest ih =>
    intro found scanned pages h
    rw [bulk_loop]
    split_ifs with hguard
    · exact h
    · have hlt : found.length < target := by omega
      cases o with
      | success businesses =>
        simp only [fetch_google_maps_page]
        split_ifs with hempty hpassed
        · exact h
        · exact ih _ _ _ h
        · simpa using process_completed_length_le target _ _ hlt
      | timeout =>
        simpa [fetch_google_maps_page] using h
      | transportError m =>
        simpa [fetch_google_maps_page] using h

/-- C1: for every bulk-search run with `target_results ≥ 1` — over every
fetch schedule, every filter predicate and every completion order and
success pattern of the enrichment pool — the returned leads list never
holds more than `target_results` entries, and the status is `"completed"`
iff the accumulated leads reached the target, otherwise `"partial"`. -/
theorem bulk_search_cap_and_status {α : Type} (target maxScan : ℕ)
    (pf : Business → Bool) (enrich : ℕ → List Business → List (Option α))
    (outcomes : List FetchOutcome) (_h : 1 ≤ target) :
    (process_bulk_search target maxScan pf enrich outcomes).leads.length ≤ target ∧
    ((process_bulk_search target maxScan pf enrich outcomes).status = "completed" ↔
      target ≤ (process_bulk_search target maxScan pf enrich outcomes).leads.length) := by
  constructor
  · exact bulk_loop_length_le target maxScan pf enrich outcomes [] 0 0 (by simp)
  · simp only [process_bulk_search]
    split_ifs with hc
    · simpa using hc
    · constructor
      · intro hcontra
        exact absurd hcontra (by decide)
      · intro hlen
        exact absurd hlen hc

/-- Witness for C1: a concrete run (target 2, one page of three candidates,
all filters wildcard, every enrichment succeeding) stays at 2 leads and its
status is `"completed"` iff 2 leads were accumulated. -/
theorem bulk_search_cap_and_status_witness :
    (process_bulk_search (α := Unit) 2 1000 (fun b => passes_filters b {})
      (fun _ bs => bs.map (fun _ => some ())) [.success [{}, {}, {}]]).leads.length ≤ 2 ∧
    ((process_bulk_search (α := Unit) 2 1000 (fun b => passes_filters b {})
      (fun _ bs => bs.map (fun _ => some ())) [.success [{}, {}, {}]]).status = "completed" ↔
      2 ≤ (process_bulk_search (α := Unit) 2 1000 (fun b => passes_filters b {})
        (fun _ bs => bs.map (fun _ => some ())) [.success [{}, {}, {}]]).leads.length) :=
  bulk_search_cap_and_status 2 1000 _ _ _ (by norm_num)

/-- C9: `_fetch_google_maps_page` swallows a timeout into an empty page
with no token, re-raises any other transport failure, and the orchestrator
treats that failure as terminal: the loop returns immediately with the
partial results accumulated so far, independently of any later outcomes
(a single request attempt per page, no retry).  A timeout ends the run the
same way, as natural exhaustion. -/
theorem fetch_failure_handling {α : Type} (target maxScan : ℕ) (pf : Business → Bool)
    (enrich : ℕ → List Business → List (Option α)) (m : String)
    (rest : List FetchOutcome) (found : List α) (scanned pages : ℕ)
    (h1 : found.length < target) (h2 : scanned < maxScan) :
    fetch_google_maps_page .timeout = .ok ([], none) ∧
    fetch_google_maps_page (.transportError m) = .error m ∧
    bulk_loop target maxScan pf enrich (.transportError m :: rest) found scanned pages =
      (found, scanned, pages + 1) ∧
    bulk_loop target maxScan pf enrich (.timeout :: rest) found scanned pages =
      (found, scanned, pages + 1) := by
  refine ⟨rfl, rfl, ?_, ?_⟩
  · rw [bulk_loop]
    rw [if_neg (by omega)]
    rfl
  · rw [bulk_loop]
    rw [if_neg (by omega)]
    rfl

/-- Witness for C9: with one lead still missing and the scan ceiling not
reached, a transport error (resp. a timeout) on the next page ends the run
with the current partial state and one more page counted. -/
theorem fetch_failure_handling_witness :
    fetch_google_maps_page .timeout = .ok ([], none) ∧
    fetch_google_maps_page (.transportError "503 Server Error") = .error "503 Server Error" ∧
    bulk_loop (α := Unit) 1 100 (fun _ => true) (fun _ _ => [])
      [.transportError "503 Server Error", .success [{}]] [] 0 0 = ([], 0, 1) ∧
    bulk_loop (α := Unit) 1 100 (fun _ => true) (fun _ _ => [])
      [.timeout, .success [{}]] [] 0 0 = ([], 0, 1) :=
  fetch_failure_handling 1 100 (fun _ => true) (fun _ _ => []) "503 Server Error"
    [.success [{}]] [] 0 0 (by norm_num) (by norm_num)

/-- C10 (counterexample): a run whose first page fetch succeeds but whose
candidates all fail the filters takes the `continue` path, skipping the
token check, and fetches a second page: `pages_fetched = 2`, refuting
"the pagination loop performs exactly one page fetch and the result's
pages_fetched field is always 1". -/
theorem single_page_counterexample :
    fetch_google_maps_page (.success [{}]) = .ok ([{}], none) ∧
    (process_bulk_search (α := Unit) 1 100
      (fun b => passes_filters b { mustHavePhone := true })
      (fun _ _ => []) [.success [{}], .success []]).pages_fetched = 2 := by
  exact ⟨rfl, by decide⟩

/-- C10 (amended): `_fetch_google_maps_page` indeed returns `None` as the
next-page token unconditionally, and whenever the first fetched page has at
least one candidate passing the filters the loop stops after exactly one
page fetch (`pages_fetched = 1`); but when a nonempty page yields no
passing candidate, the `continue` skips the token check and the loop
re-enters with another fetch, so `pages_fetched` can exceed 1. -/
theorem fetch_no_token_and_single_page {α : Type} (target maxScan : ℕ)
    (pf : Business → Bool) (enrich : ℕ → List Business → List (Option α))
    (bs : List Business) (rest : List FetchOutcome)
    (o : FetchOutcome) (bs2 : List Business) (t : Option String)
    (hfetch : fetch_google_maps_page o = .ok (bs2, t))
    (h1 : 0 < target) (h2 : 0 < maxScan) (h3 : bs ≠ [])
    (h4 : collect_passed pf 0 target 0 bs ≠ []) :
    t = none ∧
    (process_bulk_search target maxScan pf enrich (.success bs :: rest)).pages_fetched = 1 ∧
    (∀ (found : List α) (scanned pages : ℕ) (bs' : List Business),
      found.length < target → scanned < maxScan → bs' ≠ [] →
      collect_passed pf found.length target 0 bs' = [] →
      bulk_loop target maxScan pf enrich (.success bs' :: rest) found scanned pages =
        bulk_loop target maxScan pf enrich rest found (scanned + bs'.length) (pages + 1)) := by
  refine ⟨?_, ?_, ?_⟩
  · cases o <;> simp_all [fetch_google_maps_page]
  · simp only [process_bulk_search]
    rw [bulk_loop]
    rw [if_neg (by simp only [List.length_nil]; omega)]
    simp only [fetch_google_maps_page]
    rw [if_neg h3]
    rw [if_neg (by simpa using h4)]
  · intro found scanned pages bs' hf hs hbs hcol
    rw [bulk_loop]
    rw [if_neg (by omega)]
    simp only [fetch_google_maps_page]
    rw [if_neg hbs, if_pos hcol]

/-- Witness for C10 (amended): a target-1 run whose single candidate passes
the default filters fetches exactly one page. -/
theorem fetch_no_token_and_single_page_witness :
    (none : Option String) = none ∧
    (process_bulk_search (α := Unit) 1 100 (fun b => passes_filters b {})
      (fun _ bs => bs.map (fun _ => some ())) [.success [{}], .success []]).pages_fetched = 1 ∧
    (∀ (found : List Unit) (scanned pages : ℕ) (bs' : List Business),
      found.length < 1 → scanned < 100 → bs' ≠ [] →
      collect_passed (fun b => passes_filters b {}) found.length 1 0 bs' = [] →
      bulk_loop 1 100 (fun b => passes_filters b {})
          (fun _ bs => bs.map (fun _ => some ())) (.success bs' :: [.success []])
          found scanned pages =
        bulk_loop 1 100 (fun b => passes_filters b {})
          (fun _ bs => bs.map (fun _ => some ())) [.success []]
          found (scanned + bs'.length) (pages + 1)) :=
  fetch_no_token_and_single_page 1 100 (fun b => passes_filters b {})
    (fun _ bs => bs.map (fun _ => some ())) [{}] [.success []]
    (.success [{}]) [{}] none rfl (by norm_num) (by norm_num) (by decide) (by decide)

/-! ### The AI probe (C3) -/

/-- C3 (counterexample): the claim's fallback rule "High when rating < 4.0"
fails for a candidate with a website and a rating of exactly `0.0`:
`rating and rating < 4.0` is falsy in Python, so the code classifies the
lead as `"Medium"` while the claimed rule yields `"High"`. -/
theorem fallback_quality_zero_rating_counterexample :
    dict_get (get_fallback_analysis (some "https://x.ch") { rating := some 0 })
      "lead_quality" = some (.str "Medium") ∧
    fallback_quality_claim_C3 (some "https://x.ch") { rating := some 0 } = "High" := by
  exact ⟨rfl, rfl⟩

/-- C3 (amended): the AI probe never escapes — a missing API key, a failed
service call, and an unparseable or schema-invalid response all return the
deterministic fallback, whose `lead_quality` is `"High"` when the candidate
has no website, `"High"` when its rating is present, nonzero and below 4.0,
and `"Medium"` otherwise, with the templated scores and narrative text. -/
theorem gemini_failures_resolve_to_fallback (u : Option String) (m : Business)
    (sr : Except String String) (e t : String)
    (hparse : parse_gemini_response t = none) :
    analyze_with_gemini false sr u m = get_fallback_analysis u m ∧
    analyze_with_gemini true (.error e) u m = get_fallback_analysis u m ∧
    analyze_with_gemini true (.ok t) u m = get_fallback_analysis u m ∧
    dict_get (get_fallback_analysis u m) "lead_quality" =
      some (.str (if !py_truthy_str u then "High"
        else if rating_truthy_low m.rating then "High" else "Medium")) ∧
    dict_get (get_fallback_analysis u m) "scores" =
      some (.obj [("ui", .num 50), ("ux", .num 50), ("seo", .num 50),
        ("content", .num 50), ("total", .num 50)]) ∧
    (∃ body : Json, dict_get (get_fallback_analysis u m) "email_pitch" =
      some (.obj [("subject", .str ("Website-Potenzial für " ++ m.name)),
        ("body_text", body)])) := by
  refine ⟨rfl, rfl, ?_, ?_, rfl, ⟨_, rfl⟩⟩
  · have hstep : analyze_with_gemini true (.ok t) u m =
        gemini_parse_or_fallback (parse_gemini_response t) u m := rfl
    rw [hstep, hparse]
    rfl
  · by_cases hw : py_truthy_str u
    · by_cases hr : rating_truthy_low m.rating
      · simp only [get_fallback_analysis, hw, hr, Bool.not_true, Bool.false_eq_true,
          if_false, if_true]
        rfl
      · simp only [get_fallback_analysis, hw, hr, Bool.not_true, Bool.false_eq_true,
          if_false, if_true]
        rfl
    · simp only [get_fallback_analysis, Bool.not_eq_true] at hw ⊢
      simp only [hw, Bool.not_false, if_true]
      rfl

/-- Witness for C3 (amended): all three failure paths on a concrete
candidate with a website and no rating resolve to the fallback, whose
quality is `"Medium"` there. -/
theorem gemini_failures_resolve_to_fallback_witness :
    analyze_with_gemini false (.ok "{}") (some "https://ex.ch") {} =
      get_fallback_analysis (some "https://ex.ch") {} ∧
    analyze_with_gemini true (.error "service unavailable") (some "https://ex.ch") {} =
      get_fallback_analysis (some "https://ex.ch") {} ∧
    analyze_with_gemini true (.ok "not json") (some "https://ex.ch") {} =
      get_fallback_analysis (some "https://ex.ch") {} ∧
    dict_get (get_fallback_analysis (some "https://ex.ch") ({} : Business)) "lead_quality" =
      some (.str (if !py_truthy_str (some "https://ex.ch") then "High"
        else if rating_truthy_low (Business.rating {}) then "High" else "Medium")) ∧
    dict_get (get_fallback_analysis (some "https://ex.ch") ({} : Business)) "scores" =
      some (.obj [("ui", .num 50), ("ux", .num 50), ("seo", .num 50),
        ("content", .num 50), ("total", .num 50)]) ∧
    (∃ body : Json, dict_get (get_fallback_analysis (some "https://ex.ch") ({} : Business))
        "email_pitch" =
      some (.obj [("subject", .str ("Website-Potenzial für " ++ Business.name {})),
        ("body_text", body)])) :=
  gemini_failures_resolve_to_fallback (some "https://ex.ch") {} (.ok "{}")
    "service unavailable" "not json" rfl

/-! ### The merged issues list (C2) -/

theorem dedup_issues_spec (l : List Json) :
    ∀ seen, (dedup_issues seen l).Nodup ∧
      ∀ s ∈ dedup_issues seen l, s ∉ seen ∧ s ≠ "" := by
  induction l with
  | nil => intro seen; simp [dedup_issues]
  | cons i rest ih =>
    intro seen
    cases i with
    | str s =>
      simp only [dedup_issues]
      split_ifs with h1 h2
      · exact ih seen
      · exact ih seen
      · have hs : s ∉ seen := by simpa using h2
        have hne : s ≠ "" := by simpa using h1
        obtain ⟨hnd, hmem⟩ := ih (s :: seen)
        refine ⟨List.nodup_cons.mpr ⟨fun hx => ?_, hnd⟩, ?_⟩
        · exact (hmem s hx).1 (List.mem_cons_self s seen)
        · intro x hx
          rcases List.mem_cons.mp hx with rfl | hx2
          · exact ⟨hs, hne⟩
          · obtain ⟨hn, hne2⟩ := hmem x hx2
            exact ⟨fun hxs => hn (List.mem_cons_of_mem _ hxs), hne2⟩
    | null => exact ih seen
    | bool b => exact ih seen
    | num n => exact ih seen
    | arr xs => exact ih seen
    | obj fs => exact ih seen

theorem dedup_issues_length_le (l : List Json) :
    ∀ seen, (dedup_issues seen l).length ≤ l.length := by
  induction l with
  | nil => intro seen; simp [dedup_issues]
  | cons i rest ih =>
    intro seen
    cases i with
    | str s =>
      simp only [dedup_issues]
      split_ifs
      · exact le_trans (ih seen) (by simp)
      · exact le_trans (ih seen) (by simp)
      · simpa using ih (s :: seen)
    | null => exact le_trans (ih seen) (by simp)
    | bool b => exact le_trans (ih seen) (by simp)
    | num n => exact le_trans (ih seen) (by simp)
    | arr xs => exact le_trans (ih seen) (by simp)
    | obj fs => exact le_trans (ih seen) (by simp)

theorem dedup_issues_append (A : List Json) :
    ∀ (seen : List String) (B : List Json), ∃ seen2,
      dedup_issues seen (A ++ B) = dedup_issues seen A ++ dedup_issues seen2 B := by
  induction A with
  | nil => intro seen B; exact ⟨seen, by simp [dedup_issues]⟩
  | cons i rest ih =>
    intro seen B
    cases i with
    | str s =>
      simp only [List.cons_append, dedup_issues]
      split_ifs
      · exact ih seen B
      · exact ih seen B
      · obtain ⟨seen2, hs2⟩ := ih (s :: seen) B
        exact ⟨seen2, by simp [hs2]⟩
    | null => exact ih seen B
    | bool b => exact ih seen B
    | num n => exact ih seen B
    | arr xs => exact ih seen B
    | obj fs => exact ih seen B

/-- C2 (counterexample): with three distinct security issues the record's
issues list keeps all three (`security_issues[:3]`, line 661), not the top
two that the claim (and the dead prepend in `_merge_analysis_data`)
describe. -/
theorem merged_issues_top2_counterexample :
    analyze_single_issues (some "https://ex.ch") (some { performance_score := 90 })
      (some { security_score := none, security_issues := ["s1", "s2", "s3"] })
      [("report_card", .obj [("issues_found", .arr [.str "g1"])])] =
      some ["s1", "s2", "s3", "g1"] ∧
    issues_claim_spec_C2 ["s1", "s2", "s3"] ["g1"] = ["s1", "s2", "g1"] ∧
    (["s1", "s2", "s3", "g1"] : List String) ≠ ["s1", "s2", "g1"] := by
  refine ⟨by decide, ?_, by decide⟩
  simp [issues_claim_spec_C2, dedup_strings_first]

/-- C2 (amended): in the record returned by `analyze_single`, the top 3
security issues (when the probe ran and reported any) are placed first,
before the PageSpeed entry and the AI-reported issues; the combined list is
deduplicated by exact case-sensitive match preserving first-seen order
(empty entries dropped), so any repeated exact string appears exactly once
at its first position, and the final list is capped at length 10.  (The
top-2 prepend in `_merge_analysis_data` is dead code: its result is not
part of the persisted or returned record.) -/
theorem analyze_single_issues_spec (url : Option String)
    (psOracle : Option PagespeedResult) (secOracle : Option SecurityResult)
    (gemini : List (String × Json)) (r : List String) (sd : SecurityResult)
    (h : analyze_single_issues url psOracle secOracle gemini = some r) :
    r.length ≤ 10 ∧ r.Nodup ∧ (∀ s ∈ r, s ≠ "") ∧
    (py_truthy_str (url.map py_strip) = true → secOracle = some sd →
      sd.security_issues ≠ [] →
      dedup_issues [] ((sd.security_issues.take 3).map .str) <+: r) := by
  simp only [analyze_single_issues] at h
  cases hg : gemini_issues_part gemini with
  | none => rw [hg] at h; exact absurd h (by simp)
  | some g_part =>
    rw [hg] at h
    simp only [Option.some.injEq] at h
    subst h
    refine ⟨?_, ?_, ?_, ?_⟩
    · exact List.length_take_le 10 _
    · exact List.Nodup.sublist (List.take_sublist _ _) (dedup_issues_spec _ []).1
    · intro s hs
      exact ((dedup_issues_spec _ []).2 s (List.take_subset _ _ hs)).2
    · intro hweb hsec hne
      subst hsec
      rw [hweb]
      have hsec_part : sec_issues_part (some sd) =
          (sd.security_issues.take 3).map .str := by
        simp [sec_issues_part, hne]
      simp only [eq_self_iff_true, if_true, hsec_part]
      rw [List.append_assoc]
      obtain ⟨seen2, hsplit⟩ := dedup_issues_append
        ((sd.security_issues.take 3).map .str) []
        (ps_issues_part true psOracle ++ g_part)
      rw [hsplit]
      have hlen : (dedup_issues [] ((sd.security_issues.take 3).map Json.str)).length ≤ 10 := by
        refine le_trans (dedup_issues_length_le _ []) ?_
        have h3 : (sd.security_issues.take 3).length ≤ 3 := List.length_take_le 3 _
        simp only [List.length_map]
        omega
      rw [List.take_append_eq_append_take, List.take_of_length_le hlen]
      exact List.prefix_append _ _

/-- Witness for C2 (amended): on a concrete record with three security
issues and one AI issue, the issues list is duplicate-free, holds no empty
strings, stays within 10 entries, and starts with the three security
issues. -/
theorem analyze_single_issues_spec_witness :
    (["s1", "s2", "s3", "g1"] : List String).length ≤ 10 ∧
    (["s1", "s2", "s3", "g1"] : List String).Nodup ∧
    (∀ s ∈ (["s1", "s2", "s3", "g1"] : List String), s ≠ "") ∧
    dedup_issues [] [.str "s1", .str "s2", .str "s3"] <+:
      (["s1", "s2", "s3", "g1"] : List String) :=
  have h := analyze_single_issues_spec (some "https://ex.ch")
    (some { performance_score := 90 })
    (some { security_score := none, security_issues := ["s1", "s2", "s3"] })
    [("report_card", .obj [("issues_found", .arr [.str "g1"])])]
    ["s1", "s2", "s3", "g1"]
    { security_score := none, security_issues := ["s1", "s2", "s3"] }
    (by decide)
  ⟨h.1, h.2.1, h.2.2.1, h.2.2.2 (by decide) rfl (by decide)⟩

/-! ### Response sanitization (C8) -/

theorem drop_leading_ws_cons_of_not_ws {c : Char} (cs : List Char)
    (h : is_ws c = false) : drop_leading_ws (c :: cs) = c :: cs := by
  simp [drop_leading_ws, List.dropWhile_cons, h]

theorem smart_quote_brace_eq (a c : Char) (hc : c = '{' ∨ c = '}') :
    (smart_quote a == c) = (a == c) := by
  unfold smart_quote
  split_ifs with hq1 hq2
  · have ha : a = Char.ofNat 8220 ∨ a = Char.ofNat 8221 := by simpa using hq1
    rcases ha with rfl | rfl <;> rcases hc with rfl | rfl <;> decide
  · have ha : a = Char.ofNat 8216 ∨ a = Char.ofNat 8217 := by simpa using hq2
    rcases ha with rfl | rfl <;> rcases hc with rfl | rfl <;> decide
  · rfl

theorem smart_quote_count (l : List Char) (c : Char) (hc : c = '{' ∨ c = '}') :
    (l.map smart_quote).count c = l.count c := by
  induction l with
  | nil => rfl
  | cons a rest ih =>
    simp only [List.map_cons, List.count_cons, ih, smart_quote_brace_eq a c hc]

/-- The fence-stripping regexes on a code-fenced payload starting with `{`:
only the fences and the adjoining newlines are removed. -/
theorem strip_fences_fenced (mid : List Char) :
    strip_fences ("```json\n".toList ++ ('{' :: mid) ++ "\n```".toList) =
      (drop_leading_ws (('{' :: mid).reverse)).reverse := by
  have hrev : ('{' :: (mid ++ "\n```".toList)).reverse =
      '`' :: '`' :: '`' :: '\n' :: ('{' :: mid).reverse := by
    rw [List.reverse_cons, List.reverse_append, List.reverse_cons, List.append_assoc]
    rfl
  show (if starts_with_chars "```".toList (('{' :: (mid ++ "\n```".toList)).reverse) = true
      then (drop_leading_ws ((('{' :: (mid ++ "\n```".toList)).reverse).drop 3)).reverse
      else ('{' :: (mid ++ "\n```".toList))) =
    (drop_leading_ws (('{' :: mid).reverse)).reverse
  rw [hrev]
  rfl

/-- `_parse_gemini_response` sanitization: a JSON-object payload wrapped in
markdown code fences with one unmatched `{` sanitizes to exactly the same
text as the defenced payload with the missing `}` appended. -/
theorem sanitize_fenced_truncated (tl : List Char)
    (h2 : drop_leading_ws ('{' :: tl).reverse = ('{' :: tl).reverse)
    (h3 : ('{' :: tl).count '{' = ('{' :: tl).count '}' + 1) :
    sanitize_response ("```json\n".toList ++ ('{' :: tl) ++ "\n```".toList) =
      sanitize_response (('{' :: tl) ++ ['}']) := by
  have hpipe : ∀ cs, sanitize_response cs =
      quote_repair (brace_repair (extract_braces
        ((trim_list (strip_fences (trim_list cs))).map smart_quote))) := fun _ => rfl
  have hrevA : ("```json\n".toList ++ ('{' :: tl) ++ "\n```".toList).reverse =
      '`' :: '`' :: '`' :: '\n' :: (('{' :: tl).reverse ++ "```json\n".toList.reverse) := by
    rw [List.reverse_append, List.reverse_append]
    rfl
  have htrimA : trim_list ("```json\n".toList ++ ('{' :: tl) ++ "\n```".toList) =
      "```json\n".toList ++ ('{' :: tl) ++ "\n```".toList := by
    show drop_trailing_ws (drop_leading_ws _) = _
    rw [show drop_leading_ws ("```json\n".toList ++ ('{' :: tl) ++ "\n```".toList) =
        "```json\n".toList ++ ('{' :: tl) ++ "\n```".toList from rfl]
    unfold drop_trailing_ws
    rw [hrevA, drop_leading_ws_cons_of_not_ws _ (by decide), ← hrevA, List.reverse_reverse]
  have htrimts : trim_list ('{' :: tl) = '{' :: tl := by
    show drop_trailing_ws (drop_leading_ws ('{' :: tl)) = '{' :: tl
    rw [show drop_leading_ws ('{' :: tl) = '{' :: tl from rfl]
    unfold drop_trailing_ws
    rw [h2, List.reverse_reverse]
  have hrevB : (('{' :: tl) ++ ['}']).reverse = '}' :: ('{' :: tl).reverse := by
    rw [List.reverse_append]
    rfl
  have htrimB : trim_list (('{' :: tl) ++ ['}']) = ('{' :: tl) ++ ['}'] := by
    show drop_trailing_ws (drop_leading_ws _) = _
    rw [show drop_leading_ws (('{' :: tl) ++ ['}']) = ('{' :: tl) ++ ['}'] from rfl]
    unfold drop_trailing_ws
    rw [hrevB, drop_leading_ws_cons_of_not_ws _ (by decide), ← hrevB, List.reverse_reverse]
  have hstripB : strip_fences (('{' :: tl) ++ ['}']) = ('{' :: tl) ++ ['}'] := by
    show (if starts_with_chars "```".toList ((('{' :: tl) ++ ['}']).reverse) = true
        then (drop_leading_ws (((('{' :: tl) ++ ['}']).reverse).drop 3)).reverse
        else (('{' :: tl) ++ ['}'])) = ('{' :: tl) ++ ['}']
    rw [hrevB]
    rfl
  have hmapB : (('{' :: tl) ++ ['}']).map smart_quote =
      ('{' :: tl).map smart_quote ++ ['}'] := by
    rw [List.map_append]
    rfl
  have hbraceA : brace_repair (('{' :: tl).map smart_quote) =
      ('{' :: tl).map smart_quote ++ ['}'] := by
    unfold brace_repair
    rw [smart_quote_count _ _ (Or.inl rfl), smart_quote_count _ _ (Or.inr rfl), h3]
    rw [if_pos (by omega)]
    have hone : ('{' :: tl).count '}' + 1 - ('{' :: tl).count '}' = 1 := by omega
    rw [hone]
    rfl
  have hbraceB : brace_repair (('{' :: tl).map smart_quote ++ ['}']) =
      ('{' :: tl).map smart_quote ++ ['}'] := by
    unfold brace_repair
    rw [List.count_append, List.count_append,
      smart_quote_count _ _ (Or.inl rfl), smart_quote_count _ _ (Or.inr rfl), h3]
    rw [if_neg (by simp)]
  rw [hpipe, hpipe, htrimA, htrimB, hstripB, htrimB, hmapB]
  rw [strip_fences_fenced tl, h2, List.reverse_reverse, htrimts]
  rw [show extract_braces (('{' :: tl).map smart_quote) =
      ('{' :: tl).map smart_quote from rfl]
  rw [show extract_braces (('{' :: tl).map smart_quote ++ ['}']) =
      ('{' :: tl).map smart_quote ++ ['}'] from rfl]
  rw [hbraceA, hbraceB]

/-- C8: an AI response consisting of a JSON object wrapped in markdown code
fences whose trailing object is truncated by one missing closing brace
parses to exactly the same result as the same payload with the fences
stripped and the missing brace appended (the fence-strip and brace-repair
steps commute to the same sanitized text, hence the same parsed object). -/
theorem parse_gemini_fence_truncation (t : String)
    (h1 : t.toList.head? = some '{')
    (h2 : drop_leading_ws t.toList.reverse = t.toList.reverse)
    (h3 : t.toList.count '{' = t.toList.count '}' + 1) :
    parse_gemini_response ("```json\n" ++ t ++ "\n```") =
      parse_gemini_response (t ++ "\x7d") := by
  cases hlist : t.toList with
  | nil => rw [hlist] at h1; exact absurd h1 (by simp)
  | cons c tl =>
    rw [hlist] at h1 h2 h3
    have hc : c = '{' := by simpa using h1
    subst hc
    unfold parse_gemini_response
    rw [show ("```json\n" ++ t ++ "\n```").toList =
        "```json\n".toList ++ t.toList ++ "\n```".toList from rfl]
    rw [show (t ++ "\x7d").toList = t.toList ++ ['}'] from rfl]
    rw [hlist]
    rw [sanitize_fenced_truncated tl h2 h3]

/-- Witness for C8: a concrete fenced, truncated Gemini response parses to
the same validated object as its defenced, repaired form, and that object
is recovered (the parse is not `None`). -/
theorem parse_gemini_fence_truncation_witness :
    parse_gemini_response ("```json\n" ++ "\x7b\"lead_quality\": \"High\", \"scores\": \x7b\"ui\": 80\x7d, \"report_card\": \x7b\"x\": 1\x7d, \"email_pitch\": \x7b\"y\": 2\x7d" ++ "\n```") =
      parse_gemini_response ("\x7b\"lead_quality\": \"High\", \"scores\": \x7b\"ui\": 80\x7d, \"report_card\": \x7b\"x\": 1\x7d, \"email_pitch\": \x7b\"y\": 2\x7d" ++ "\x7d") ∧
    (parse_gemini_response ("\x7b\"lead_quality\": \"High\", \"scores\": \x7b\"ui\": 80\x7d, \"report_card\": \x7b\"x\": 1\x7d, \"email_pitch\": \x7b\"y\": 2\x7d" ++ "\x7d")).isSome = true :=
  ⟨parse_gemini_fence_truncation
      "\x7b\"lead_quality\": \"High\", \"scores\": \x7b\"ui\": 80\x7d, \"report_card\": \x7b\"x\": 1\x7d, \"email_pitch\": \x7b\"y\": 2\x7d"
      (by decide) (by decide) (by decide),
   by decide⟩

end Analyzer
